import Mathlib

/-!
Verification of the pulse/snap task-scheduling core and its REST plugin
handlers.  The scheduler registry, workflow compiler and content-type
negotiation are modelled from the specification (the repository ships only
their test suite); the REST handlers are embedded from
`mgmt/rest/plugin.go`.
-/

namespace Snap

/-- Modelled from the spec: structured errors carried in the error lists
returned by scheduler operations (`perror.PulseError` holds an underlying
message). -/
structure PError where
  msg : String
deriving DecidableEq, Repr

/-- Modelled from the spec: the kind of a plugin, used to key the plugin
content-type catalog (`core.PluginType`). -/
inductive PluginType where
  | collector
  | processor
  | publisher
deriving DecidableEq, Repr

/-- Modelled from the spec: the Metric Manager capability, restricted to what
`CreateTask` consumes.  `contentTypes` is the plugin content-type catalog
behind `GetPluginContentTypes` (keyed by name, type, version; accepted list
paired with returned list); `validateDepsErrors` is the error list that
`ValidateDeps` reports for the declared metric set. -/
structure MetricManager where
  contentTypes : List ((String × PluginType × Int) × (List String × List String))
  validateDepsErrors : List PError
deriving DecidableEq, Repr

/-- Catalog lookup: accepted and returned content types for a plugin
identity; a plugin absent from the catalog yields two empty lists (the
manager lazily materialises empty entries). -/
def MetricManager.getContentTypes (mm : MetricManager) (n : String)
    (t : PluginType) (v : Int) : List String × List String :=
  match mm.contentTypes.find? (fun e => e.1 = (n, t, v)) with
  | some e => e.2
  | none => ([], [])

/-- Modelled from the spec: a Schedule capability; the only concrete policy
the claims touch is the fixed-interval simple schedule (interval in
nanoseconds, as a signed duration). -/
inductive Schedule where
  | simple (interval : Int)
deriving DecidableEq, Repr

/-- Modelled from the spec: schedule self-validation; a non-positive interval
is rejected with the schedule's own validation message. -/
def Schedule.validate : Schedule → Option PError
  | .simple i => if i ≤ 0 then some ⟨"Interval must be greater than 0"⟩ else none

/-- Modelled from the spec: a declarative Publish node of a workflow map,
identifying a publisher plugin by name and version.  Publish nodes are
always leaves.  (Config items are omitted: they play no part in
validation or negotiation.) -/
structure PublishNode where
  name : String
  version : Int
deriving DecidableEq, Repr

mutual

/-- Modelled from the spec: a declarative Process node of a workflow map,
identifying a processor plugin by name and version, with child Process and
Publish nodes (pipeline branching). -/
inductive ProcessNode : Type where
  | mk (name : String) (version : Int)
      (processNodes : ProcessForest) (publishNodes : List PublishNode)

/-- The ordered children of a node that are themselves Process nodes. -/
inductive ProcessForest : Type where
  | nil
  | cons (head : ProcessNode) (tail : ProcessForest)

end

/-- Modelled from the spec: a workflow map — one Collect node holding the
(namespace, version) metric requests and its child Process/Publish nodes. -/
structure WorkflowMap where
  metrics : List (String × Int)
  processNodes : ProcessForest
  publishNodes : List PublishNode

/-- A compiled Publish node: the declarative identity plus the negotiated
`InboundContentType`. -/
structure CPublishNode where
  name : String
  version : Int
  inboundContentType : String
deriving DecidableEq, Repr

mutual

/-- A compiled Process node: the declarative identity plus the negotiated
`InboundContentType` and compiled children. -/
inductive CProcessNode : Type where
  | mk (name : String) (version : Int) (inboundContentType : String)
      (processNodes : CProcessForest) (publishNodes : List CPublishNode)

/-- The compiled Process children of a compiled node. -/
inductive CProcessForest : Type where
  | nil
  | cons (head : CProcessNode) (tail : CProcessForest)

end

/-- View a compiled Process forest as a list of its nodes. -/
def CProcessForest.toList : CProcessForest → List CProcessNode
  | .nil => []
  | .cons h t => h :: t.toList

def CProcessNode.inboundContentType : CProcessNode → String
  | .mk _ _ ct _ _ => ct

def CProcessNode.processNodes : CProcessNode → CProcessForest
  | .mk _ _ _ prs _ => prs

def CProcessNode.publishNodes : CProcessNode → List CPublishNode
  | .mk _ _ _ _ pus => pus

/-- Modelled from the spec: the wildcard content type a consumer may accept
(matches anything). -/
def wildcardContentType : String := "pulse.*"

/-- Modelled from the spec: the framework's two native serialization
formats; the framework can convert between them, so a consumer accepting a
native type can be fed even when the producer's returned set misses it. -/
def gobContentType : String := "pulse.gob"

def jsonContentType : String := "pulse.json"

/-- Modelled from the spec: resolve one directed edge of the pipeline.
`lct` is the producer's returned (last) content types, `act` the consumer's
accepted ones.  The first concrete (non-wildcard, non-empty) accepted type
present in the producer's returned set wins, in the order the consumer
declared its accepted list.  With no concrete match the framework falls
back to its native serializations when the consumer accepts one (gob
preferred, then json); a consumer accepting only the wildcard falls back to
the producer's first returned type.  The empty identifier denotes an
unresolved edge and is never a negotiation result.  `none` means the edge
is unresolvable (`ContentTypeNotSupported`). -/
def resolveType (lct act : List String) : Option String :=
  match act.find? (fun a => a ≠ wildcardContentType && a ≠ "" && lct.contains a) with
  | some ct => some ct
  | none =>
    if act.contains gobContentType then some gobContentType
    else if act.contains jsonContentType then some jsonContentType
    else if act.contains wildcardContentType then
      match lct.head? with
      | some c => if c = "" then none else some c
      | none => none
    else none

/-- Modelled from the spec: the `ContentTypeNotSupported` diagnostic, naming
the consumer plugin identity and the producer's returned types. -/
def ctNotSupported (n : String) (v : Int) (lct : List String) : PError :=
  ⟨"ContentTypeNotSupported: plugin " ++ n ++ " version " ++ toString v ++
    " accepts none of " ++ toString lct⟩

/-- Modelled from the spec: negotiate the Publish leaves of one layer,
against the producer's returned types `lct`. -/
def bindPus (mm : MetricManager) (lct : List String) :
    List PublishNode → Except PError (List CPublishNode)
  | [] => .ok []
  | pu :: rest => do
    let (act, _) := mm.getContentTypes pu.name .publisher pu.version
    match resolveType lct act with
    | none => .error (ctNotSupported pu.name pu.version lct)
    | some ct => do
      let crest ← bindPus mm lct rest
      .ok (⟨pu.name, pu.version, ct⟩ :: crest)

mutual

/-- Modelled from the spec: negotiate one Process node of the depth-first
walk.  The node's inbound type is resolved against the producer's returned
types `lct`; its children are then negotiated with the node's own returned
types as the new producer set. -/
def bindPr (mm : MetricManager) (lct : List String) :
    ProcessNode → Except PError CProcessNode
  | .mk n v prs pus => do
    let (act, rct) := mm.getContentTypes n .processor v
    match resolveType lct act with
    | none => .error (ctNotSupported n v lct)
    | some ct => do
      let cprs ← bindForest mm rct prs
      let cpus ← bindPus mm rct pus
      .ok (.mk n v ct cprs cpus)

/-- Modelled from the spec: negotiate the Process children of one layer, in
order, all against the same producer's returned types `lct`. -/
def bindForest (mm : MetricManager) (lct : List String) :
    ProcessForest → Except PError CProcessForest
  | .nil => .ok .nil
  | .cons p rest => do
    let cp ← bindPr mm lct p
    let crest ← bindForest mm lct rest
    .ok (.cons cp crest)

end

/-- Modelled from the spec: the default returned content type of the Collect
stage — the framework's native serialization. -/
def collectReturnedTypes : List String := [gobContentType]

/-- A compiled Pipeline: the negotiated Process/Publish trees hanging off the
Collect node. -/
structure CWorkflow where
  metrics : List (String × Int)
  processNodes : CProcessForest
  publishNodes : List CPublishNode

/-- Modelled from the spec: compile a workflow map into a negotiated
Pipeline, the Collect stage acting as implicit producer for the first
layer. -/
def bindWorkflow (mm : MetricManager) (w : WorkflowMap) :
    Except PError CWorkflow := do
  let cprs ← bindForest mm collectReturnedTypes w.processNodes
  let cpus ← bindPus mm collectReturnedTypes w.publishNodes
  .ok ⟨w.metrics, cprs, cpus⟩

/-- Modelled from the spec: the restricted character set a metric namespace
may use — alphanumerics plus the path separator and the punctuation common
in metric paths. -/
def validNsChar (c : Char) : Bool :=
  c.isAlphanum || c = '/' || c = '_' || c = '-' || c = '.'

/-- Modelled from the spec: namespace syntax validation; a namespace must be
non-empty and built only from the restricted character set. -/
def validateNamespace (ns : String) : Bool :=
  ns ≠ "" && ns.toList.all validNsChar

/-- Modelled from the spec: the diagnostic attached to a namespace that
fails syntax validation. -/
def invalidNamespaceError (ns : String) : PError :=
  ⟨"invalid namespace: " ++ ns⟩

/-- Modelled from the spec: all syntax violations of a workflow map's
declared namespaces, collected (never just the first). -/
def namespaceErrors (w : WorkflowMap) : List PError :=
  (w.metrics.filter (fun m => !validateNamespace m.1)).map
    (fun m => invalidNamespaceError m.1)

/-- Modelled from the spec: the fixed default deadline duration for one full
fire cycle, in nanoseconds (`DefaultDeadlineDuration`). -/
def defaultDeadlineDuration : Int := 5 * 1000000000

/-- Modelled from the spec: a task, wrapping its compiled Pipeline, its
Schedule, its deadline duration and its registry identity.  Runtime
statistics and the execution loop are out of the claims' scope. -/
structure Task where
  id : Nat
  deadlineDuration : Int
  schedule : Schedule
  workflow : CWorkflow

/-- Modelled from the spec: a reversible task option; the only option the
claims touch overrides the deadline duration (`core.TaskDeadlineDuration`). -/
inductive TaskOption where
  | deadlineDuration (d : Int)
deriving DecidableEq, Repr

/-- Modelled from the spec: applying an option mutates the task and returns
an option carrying the prior value, so the application can be reversed. -/
def Task.applyOption (t : Task) : TaskOption → Task × TaskOption
  | .deadlineDuration d =>
    ({ t with deadlineDuration := d }, .deadlineDuration t.deadlineDuration)

/-- Modelled from the spec: options are applied in declaration order, later
options overriding earlier ones. -/
def Task.applyOptions (t : Task) (opts : List TaskOption) : Task :=
  opts.foldl (fun t o => (t.applyOption o).1) t

/-- Modelled from the spec: the scheduler's global lifecycle states. -/
inductive SchedulerState where
  | stopped
  | started
deriving DecidableEq, Repr

/-- Modelled from the spec: the lifecycle error raised when `CreateTask` is
called on a scheduler that is not running. -/
def errSchedulerNotStarted : PError := ⟨"scheduler not started"⟩

/-- Modelled from the spec: the lifecycle error raised when `Start` is
called before a Metric Manager was installed. -/
def errMetricManagerNotSet : PError := ⟨"metric manager not set"⟩

/-- Modelled from the spec: the registry error raised on inserting a task
whose ID is already present. -/
def errDuplicateTaskId (id : Nat) : PError :=
  ⟨"duplicate task id: " ++ toString id⟩

/-- Modelled from the spec: insert a task into the registry; re-adding an
existing ID is an error, not an overwrite. -/
def addTask (r : List Task) (t : Task) : Except PError (List Task) :=
  if r.any (fun x => x.id = t.id) then .error (errDuplicateTaskId t.id)
  else .ok (t :: r)

/-- Modelled from the spec: the Scheduler — registry of tasks keyed by
unique IDs (freshness tracked by a monotonic counter), the installed Metric
Manager capability, and the global lifecycle state. -/
structure Scheduler where
  state : SchedulerState
  metricManager : Option MetricManager
  tasks : List Task
  nextId : Nat

/-- Modelled from the spec: a fresh scheduler — stopped, no manager, empty
registry (`New`). -/
def newScheduler : Scheduler :=
  ⟨.stopped, none, [], 1⟩

/-- Modelled from the spec: install the Metric Manager capability. -/
def setMetricManager (s : Scheduler) (mm : MetricManager) : Scheduler :=
  { s with metricManager := some mm }

/-- Modelled from the spec: `Start` transitions Stopped → Running, failing
with `MetricManagerNotSet` when no manager is installed. -/
def startScheduler (s : Scheduler) : Scheduler × Option PError :=
  match s.metricManager with
  | none => (s, some errMetricManagerNotSet)
  | some _ => ({ s with state := .started }, none)

/-- Modelled from the spec: `Stop` transitions the scheduler to Stopped. -/
def stopScheduler (s : Scheduler) : Scheduler :=
  { s with state := .stopped }

/-- Modelled from the spec: the registry snapshot (`GetTasks`). -/
def getTasks (s : Scheduler) : List Task :=
  s.tasks

/-- Modelled from the spec: `GetTask` by ID, failing with `TaskNotFound`. -/
def getTask (s : Scheduler) (id : Nat) : Except PError Task :=
  match s.tasks.find? (fun t => t.id = id) with
  | some t => .ok t
  | none => .error ⟨"task not found: " ++ toString id⟩

/-- Modelled from the spec, §4.1: `CreateTask`.  Rejects immediately when the
scheduler is not running or the schedule fails self-validation; then
collects all namespace-syntax violations and the Metric Manager's
dependency-validation errors; compiles the workflow only when no error was
collected; on any error returns a nil task, the error list, and an
unchanged scheduler; otherwise registers a task with a fresh ID and the
option-adjusted deadline.  (The `startOnCreate` flag only launches the
execution loop, which is outside the claims' scope.) -/
def createTask (s : Scheduler) (sched : Schedule) (w : WorkflowMap)
    (opts : List TaskOption) : Scheduler × Option Task × List PError :=
  if s.state ≠ .started then (s, none, [errSchedulerNotStarted])
  else
    match sched.validate with
    | some e => (s, none, [e])
    | none =>
      match s.metricManager with
      | none => (s, none, [errMetricManagerNotSet])
      | some mm =>
        if namespaceErrors w ++ mm.validateDepsErrors ≠ [] then
          (s, none, namespaceErrors w ++ mm.validateDepsErrors)
        else
          match bindWorkflow mm w with
          | .error e => (s, none, [e])
          | .ok cw =>
            match addTask s.tasks
                (Task.applyOptions ⟨s.nextId, defaultDeadlineDuration, sched, cw⟩ opts) with
            | .error e => (s, none, [e])
            | .ok ts =>
              ({ s with tasks := ts, nextId := s.nextId + 1 },
               some (Task.applyOptions ⟨s.nextId, defaultDeadlineDuration, sched, cw⟩ opts),
               [])

/-! The mock plugin catalog and the example workflow of `TestScheduler`
(`scheduler/scheduler_test.go`), used as concrete instances. -/

/-- The mock Metric Manager of the test: the "machine" processor (version 1)
accepts `["pulse.*", "pulse.gob", "foo.bar"]` and returns `["pulse.gob"]`;
the "rmq" and "file" publishers (version -1) accept `["pulse.json",
"pulse.gob"]` and `["pulse.json"]` respectively; `ValidateDeps` reports no
errors. -/
def testManager : MetricManager :=
  ⟨[(("machine", .processor, 1), (["pulse.*", "pulse.gob", "foo.bar"], ["pulse.gob"])),
    (("rmq", .publisher, -1), (["pulse.json", "pulse.gob"], [])),
    (("file", .publisher, -1), (["pulse.json"], []))],
   []⟩

/-- The example workflow of the test: metrics `/foo/bar` v1 and `/foo/baz`
v2; a "machine" process node holding a second "machine" process node whose
child is the "file" publisher; the "rmq" publisher attached directly to the
Collect node. -/
def testWorkflow : WorkflowMap :=
  ⟨[("/foo/bar", 1), ("/foo/baz", 2)],
   .cons (.mk "machine" 1 (.cons (.mk "machine" 1 .nil [⟨"file", -1⟩]) .nil) []) .nil,
   [⟨"rmq", -1⟩]⟩

/-- The scheduler of the test after `New`, `SetMetricManager` and `Start`. -/
def testScheduler : Scheduler :=
  (startScheduler (setMetricManager newScheduler testManager)).1

/-- One second, in the nanosecond units of `time.Duration`. -/
def oneSecond : Int := 1000000000

namespace Rest

/-- A response body written by the plugin REST handlers: an error rendering
(`rbody.FromError` / `rbody.FromPulseError`), the identity of an unloaded
plugin (`rbody.PluginUnloaded`), or the list of loaded plugins
(`rbody.PluginsLoaded`, summarised by plugin file name). -/
inductive Body where
  | fromError (msg : String)
  | pluginUnloaded (name : String) (version : Int) (ptype : String)
  | pluginsLoaded (names : List String)
deriving DecidableEq, Repr

/-- A response written through `respond(code, body, w)`. -/
structure Response where
  code : Nat
  body : Body
deriving DecidableEq, Repr

/-- `strconv.ParseInt(s, 10, 0)` from the Go standard library, as used by
`unloadPlugin`: an optional sign followed by at least one decimal digit,
within the signed 64-bit range; `none` is a parse error. -/
def parseGoInt (s : String) : Option Int :=
  let (neg, digits) :=
    match s.toList with
    | '+' :: rest => (false, rest)
    | '-' :: rest => (true, rest)
    | l => (false, l)
  if digits.isEmpty || !digits.all Char.isDigit then none
  else
    let n : Nat := digits.foldl (fun acc c => acc * 10 + (c.toNat - 48)) 0
    let v : Int := if neg then -(n : Int) else (n : Int)
    if -(2 ^ 63) ≤ v ∧ v < 2 ^ 63 then some v else none

/-- The outcome of the Metric Manager's `Unload` call: the unloaded plugin's
identity, or a `perror` rendered at status 500. -/
inductive UnloadResult where
  | ok (name : String) (version : Int) (ptype : String)
  | err (msg : String)
deriving DecidableEq, Repr

/-- `unloadPlugin` (`mgmt/rest/plugin.go:132`): parse the version path
parameter, reject a missing name or type, then call the Metric Manager's
`Unload`; 400 on a bad parameter (without calling `Unload`), 500 when
`Unload` fails, 200 with the unloaded plugin's identity on success.  The
Boolean records whether `Unload` was invoked. -/
def unloadPlugin (unload : String → Int → String → UnloadResult)
    (plName plType plVersionStr : String) : Response × Bool :=
  match parseGoInt plVersionStr with
  | none => (⟨400, .fromError "invalid version"⟩, false)
  | some v =>
    if plName = "" then (⟨400, .fromError "missing plugin name"⟩, false)
    else if plType = "" then (⟨400, .fromError "missing plugin type"⟩, false)
    else
      match unload plName v plType with
      | .err e => (⟨500, .fromError e⟩, true)
      | .ok n uv ty => (⟨200, .pluginUnloaded n uv ty⟩, true)

/-- `strings.HasPrefix(s, pre)` from the Go standard library, as used by
`loadPlugin` on the parsed media type. -/
def goHasPre (s pre : String) : Bool :=
  pre.toList.isPrefixOf s.toList

/-- The outcome of handling one multipart part inside `loadPlugin`'s loop:
any gzip/read/write/`Load` failure aborts the loop with a 500, a loaded
plugin is appended and the loop continues. -/
inductive PartOutcome where
  | fail (e : String)
  | loaded (name : String)
deriving DecidableEq, Repr

/-- The multipart loop of `loadPlugin`: parts are consumed until the first
failure (500) or until EOF (201 with every loaded plugin). -/
def loadPluginParts (acc : List String) : List PartOutcome → Response
  | [] => ⟨201, .pluginsLoaded acc⟩
  | .fail e :: _ => ⟨500, .fromError e⟩
  | .loaded n :: rest => loadPluginParts (acc ++ [n]) rest

/-- `loadPlugin` (`mgmt/rest/plugin.go:46`): `mime.ParseMediaType` on the
request's Content-Type header is an external call whose outcome is the
`parsed` argument; a parse failure responds 500, a media type with the
`multipart/` prefix runs the part loop, and any other media type falls off
the end of the handler without writing a response (`none`). -/
def loadPlugin (parsed : Except String String) (parts : List PartOutcome) :
    Option Response :=
  match parsed with
  | .error e => some ⟨500, .fromError e⟩
  | .ok mediaType =>
    if goHasPre mediaType "multipart/" then some (loadPluginParts [] parts)
    else none

end Rest

/-! Negotiation completeness: a successful walk leaves no node with an
empty inbound content type. -/

mutual

/-- Every node of a compiled Process tree, and every Publish leaf hanging
off it, carries a non-empty `InboundContentType`. -/
def CProcessNode.fullyResolved : CProcessNode → Bool
  | .mk _ _ ct prs pus =>
    (ct != "") && prs.fullyResolved && pus.all (fun q => q.inboundContentType != "")

/-- Every tree of a compiled Process forest is fully resolved. -/
def CProcessForest.fullyResolved : CProcessForest → Bool
  | .nil => true
  | .cons p rest => p.fullyResolved && rest.fullyResolved

end

theorem resolveType_ne_empty (lct act : List String) (ct : String)
    (h : resolveType lct act = some ct) : ct ≠ "" := by
  unfold resolveType at h
  split at h
  · next a hfind =>
    have hp := List.find?_some hfind
    simp only [Bool.and_eq_true, decide_eq_true_eq] at hp
    cases h
    exact hp.1.2
  · split at h
    · cases h
      simp [gobContentType]
    · split at h
      · cases h
        simp [jsonContentType]
      · split at h
        · split at h
          · split at h
            · cases h
            · next hne =>
              cases h
              exact hne
          · cases h
        · cases h

theorem bindPus_resolved (mm : MetricManager) (lct : List String)
    (l : List PublishNode) (cl : List CPublishNode)
    (h : bindPus mm lct l = .ok cl) :
    ∀ q ∈ cl, q.inboundContentType ≠ "" := by
  induction l generalizing cl with
  | nil =>
    simp only [bindPus] at h
    cases h
    simp
  | cons pu rest ih =>
    simp only [bindPus] at h
    split at h
    · exact absurd h (by simp [bind, Except.bind])
    · next ct hres =>
      simp only [bind, Except.bind] at h
      split at h
      · exact absurd h (by simp)
      · next crest hrest =>
        cases h
        intro q hq
        rcases List.mem_cons.mp hq with hq | hq
        · subst hq
          exact resolveType_ne_empty _ _ _ hres
        · exact ih crest hrest q hq

mutual

theorem bindPr_resolved (mm : MetricManager) (lct : List String)
    (p : ProcessNode) (cp : CProcessNode)
    (h : bindPr mm lct p = .ok cp) : cp.fullyResolved = true :=
  match p with
  | .mk n v prs pus => by
    simp only [bindPr] at h
    split at h
    · exact absurd h (by simp [bind, Except.bind])
    · next ct hres =>
      simp only [bind, Except.bind] at h
      split at h
      · exact absurd h (by simp)
      · next cprs hprs =>
        split at h
        · exact absurd h (by simp)
        · next cpus hpus =>
          cases h
          simp only [CProcessNode.fullyResolved, Bool.and_eq_true, bne_iff_ne,
            ne_eq, List.all_eq_true]
          refine ⟨⟨resolveType_ne_empty _ _ _ hres, ?_⟩, ?_⟩
          · exact bindForest_resolved mm _ prs cprs hprs
          · intro q hq
            simpa using bindPus_resolved mm _ pus cpus hpus q hq

theorem bindForest_resolved (mm : MetricManager) (lct : List String)
    (l : ProcessForest) (cl : CProcessForest)
    (h : bindForest mm lct l = .ok cl) : cl.fullyResolved = true :=
  match l with
  | .nil => by
    simp only [bindForest] at h
    cases h
    rfl
  | .cons p rest => by
    simp only [bindForest, bind, Except.bind] at h
    split at h
    · exact absurd h (by simp)
    · next cp hp =>
      split at h
      · exact absurd h (by simp)
      · next crest hrest =>
        cases h
        simp only [CProcessForest.fullyResolved, Bool.and_eq_true]
        exact ⟨bindPr_resolved mm lct p cp hp,
          bindForest_resolved mm lct rest crest hrest⟩

end

/-! Task options touch only the deadline duration. -/

theorem applyOption_fst (t : Task) (o : TaskOption) :
    (t.applyOption o).1.id = t.id ∧ (t.applyOption o).1.schedule = t.schedule ∧
      (t.applyOption o).1.workflow = t.workflow := by
  cases o with
  | deadlineDuration d => exact ⟨rfl, rfl, rfl⟩

theorem applyOptions_id (t : Task) (opts : List TaskOption) :
    (Task.applyOptions t opts).id = t.id := by
  induction opts generalizing t with
  | nil => rfl
  | cons o rest ih =>
    simp only [Task.applyOptions, List.foldl_cons] at *
    rw [ih]
    exact (applyOption_fst t o).1

theorem applyOptions_workflow (t : Task) (opts : List TaskOption) :
    (Task.applyOptions t opts).workflow = t.workflow := by
  induction opts generalizing t with
  | nil => rfl
  | cons o rest ih =>
    simp only [Task.applyOptions, List.foldl_cons] at *
    rw [ih]
    exact (applyOption_fst t o).2.2

/-! Inversion principles for `createTask`. -/

theorem createTask_ok_inv (s s' : Scheduler) (sched : Schedule)
    (w : WorkflowMap) (opts : List TaskOption) (t : Task) (errs : List PError)
    (h : createTask s sched w opts = (s', some t, errs)) :
    ∃ mm cw, s.state = .started ∧ sched.validate = none ∧
      s.metricManager = some mm ∧
      namespaceErrors w ++ mm.validateDepsErrors = [] ∧
      bindWorkflow mm w = .ok cw ∧
      t = Task.applyOptions ⟨s.nextId, defaultDeadlineDuration, sched, cw⟩ opts ∧
      s.tasks.any (fun x => x.id = t.id) = false ∧
      errs = [] ∧
      s' = { s with tasks := t :: s.tasks, nextId := s.nextId + 1 } := by
  unfold createTask at h
  split at h
  · simp at h
  · next hstate =>
    split at h
    · simp at h
    · next hval =>
      split at h
      · simp at h
      · next mm hmm =>
        split at h
        · simp at h
        · next herrs =>
          split at h
          · simp at h
          · next cw hcw =>
            split at h
            · simp at h
            · next ts hadd =>
              rw [addTask] at hadd
              split at hadd
              · exact absurd hadd (by simp)
              · next hdup =>
                simp only [Prod.mk.injEq] at h
                obtain ⟨hs', ht, herr⟩ := h
                injection ht with ht
                subst ht
                injection hadd with hadd
                refine ⟨mm, cw, by simpa using hstate, hval, hmm, by simpa using herrs,
                  hcw, rfl, by simpa using hdup, herr.symm, ?_⟩
                rw [← hs', ← hadd]

theorem createTask_error_inv (s s' : Scheduler) (sched : Schedule)
    (w : WorkflowMap) (opts : List TaskOption) (topt : Option Task)
    (errs : List PError)
    (h : createTask s sched w opts = (s', topt, errs)) (hne : errs ≠ []) :
    topt = none ∧ s' = s := by
  unfold createTask at h
  split at h
  · simp only [Prod.mk.injEq] at h
    exact ⟨h.2.1.symm, h.1.symm⟩
  · split at h
    · simp only [Prod.mk.injEq] at h
      exact ⟨h.2.1.symm, h.1.symm⟩
    · split at h
      · simp only [Prod.mk.injEq] at h
        exact ⟨h.2.1.symm, h.1.symm⟩
      · split at h
        · simp only [Prod.mk.injEq] at h
          exact ⟨h.2.1.symm, h.1.symm⟩
        · split at h
          · simp only [Prod.mk.injEq] at h
            exact ⟨h.2.1.symm, h.1.symm⟩
          · split at h
            · simp only [Prod.mk.injEq] at h
              exact ⟨h.2.1.symm, h.1.symm⟩
            · simp only [Prod.mk.injEq] at h
              exact absurd h.2.2.symm hne

/-! Concrete outcome of compiling the test workflow, shared by several
concrete instances below. -/

/-- The pipeline the test workflow compiles to under the mock catalog: the
outer and inner "machine" processors resolve to `pulse.gob`, the "file"
publisher under them to `pulse.json`, and the "rmq" publisher attached to
the Collect node to `pulse.gob`. -/
def testCompiledWorkflow : CWorkflow :=
  ⟨[("/foo/bar", 1), ("/foo/baz", 2)],
   .cons (.mk "machine" 1 "pulse.gob"
     (.cons (.mk "machine" 1 "pulse.gob" .nil [⟨"file", -1, "pulse.json"⟩]) .nil) []) .nil,
   [⟨"rmq", -1, "pulse.gob"⟩]⟩

/-- The task `CreateTask` registers for the test workflow on the fresh
started scheduler. -/
def testCompiledTask : Task :=
  ⟨1, defaultDeadlineDuration, .simple oneSecond, testCompiledWorkflow⟩

/-- The scheduler after that registration. -/
def testSchedulerAfter : Scheduler :=
  ⟨.started, some testManager, [testCompiledTask], 2⟩

/-! The claims. -/

/-- C1: In the example workflow where the "machine" processor (version 1)
returns `["pulse.gob"]`, the "rmq" publisher accepts
`["pulse.json","pulse.gob"]` and the "file" publisher accepts only
`["pulse.json"]`, compilation succeeds, the rmq publisher's
`InboundContentType` resolves to `"pulse.gob"` (the concrete intersection
with its producer), and the file publisher's resolves to `"pulse.json"`
even though it sits under a "machine" processor whose returned set
`["pulse.gob"]` has empty intersection with `["pulse.json"]`. -/
theorem negotiation_example_resolved :
    ((createTask testScheduler (.simple oneSecond) testWorkflow []).2.2 = []) ∧
    ((createTask testScheduler (.simple oneSecond) testWorkflow []).2.1.map
        (fun t => t.workflow.publishNodes.map fun q => (q.name, q.inboundContentType))
      = some [("rmq", "pulse.gob")]) ∧
    ((createTask testScheduler (.simple oneSecond) testWorkflow []).2.1.map
        (fun t => t.workflow.processNodes.toList.map fun p =>
          (p.inboundContentType, p.processNodes.toList.map fun p2 =>
            (p2.inboundContentType,
             p2.publishNodes.map fun q => (q.name, q.inboundContentType))))
      = some [("pulse.gob", [("pulse.gob", [("file", "pulse.json")])])]) :=
  ⟨rfl, rfl, rfl⟩

/-- C2: for every workflow map that `CreateTask` compiles successfully,
every Process node and every Publish node reachable in the compiled
pipeline carries a non-empty `InboundContentType`: the depth-first
negotiation walk leaves no edge unresolved on success. -/
theorem compiled_pipeline_fully_negotiated (s s' : Scheduler) (sched : Schedule)
    (w : WorkflowMap) (opts : List TaskOption) (t : Task) (errs : List PError)
    (h : createTask s sched w opts = (s', some t, errs)) :
    t.workflow.processNodes.fullyResolved = true ∧
    t.workflow.publishNodes.all (fun q => q.inboundContentType != "") = true := by
  obtain ⟨mm, cw, _, _, _, _, hcw, ht, _, _, _⟩ := createTask_ok_inv _ _ _ _ _ _ _ h
  have hw : t.workflow = cw := by rw [ht, applyOptions_workflow]
  unfold bindWorkflow at hcw
  simp only [bind, Except.bind] at hcw
  split at hcw
  · exact absurd hcw (by simp)
  · next cprs hprs =>
    split at hcw
    · exact absurd hcw (by simp)
    · next cpus hpus =>
      injection hcw with hcw
      rw [hw, ← hcw]
      refine ⟨bindForest_resolved _ _ _ _ hprs, ?_⟩
      simp only [List.all_eq_true, bne_iff_ne, ne_eq]
      intro q hq
      exact bindPus_resolved _ _ _ _ hpus q hq

/-- C3: `CreateTask` is atomic with respect to the registry — whenever it
returns a non-empty error list it returns no task and the task table is
unchanged, both as a whole and in size; no partially-constructed task is
registered. -/
theorem createTask_atomic_on_error (s s' : Scheduler) (sched : Schedule)
    (w : WorkflowMap) (opts : List TaskOption) (topt : Option Task)
    (errs : List PError)
    (h : createTask s sched w opts = (s', topt, errs)) (hne : errs ≠ []) :
    topt = none ∧ getTasks s' = getTasks s ∧
      (getTasks s').length = (getTasks s).length := by
  obtain ⟨h1, h2⟩ := createTask_error_inv _ _ _ _ _ _ _ h hne
  exact ⟨h1, by rw [h2], by rw [h2]⟩

/-- C4: `CreateTask` on a scheduler that is not running returns the
`SchedulerNotStarted` error as its sole (hence first) error, whatever the
schedule, workflow and options are — the guard precedes every other
validation; and after `SetMetricManager` and `Start`, the same test
workflow creates a task successfully. -/
theorem createTask_not_started_guard (s : Scheduler) (sched : Schedule)
    (w : WorkflowMap) (opts : List TaskOption) (h : s.state ≠ .started) :
    createTask s sched w opts = (s, none, [errSchedulerNotStarted]) ∧
    (createTask testScheduler (.simple oneSecond) testWorkflow []).2.2 = [] ∧
    (createTask testScheduler (.simple oneSecond) testWorkflow []).2.1.isSome
      = true := by
  refine ⟨?_, rfl, rfl⟩
  unfold createTask
  rw [if_pos h]

/-- C5: on a running scheduler, a schedule with interval 0 is rejected, the
schedule's own validation error is propagated verbatim as the first (and
only) returned error, and no task is created or registered. -/
theorem createTask_zero_interval_rejected (s : Scheduler) (w : WorkflowMap)
    (opts : List TaskOption) (h : s.state = .started) :
    createTask s (.simple 0) w opts =
      (s, none, [⟨"Interval must be greater than 0"⟩]) := by
  unfold createTask
  rw [if_neg (by simp [h])]
  rfl

/-- C6: a task created without options carries the fixed default deadline
duration; applying the deadline option with `d` sets the deadline to `d`
and returns an option carrying the prior value, and applying that returned
option restores the deadline exactly. -/
theorem deadline_default_and_option_reversible (s s' : Scheduler)
    (sched : Schedule) (w : WorkflowMap) (t : Task) (errs : List PError)
    (tsk : Task) (d : Int)
    (h : createTask s sched w [] = (s', some t, errs)) :
    t.deadlineDuration = defaultDeadlineDuration ∧
    (tsk.applyOption (.deadlineDuration d)).1.deadlineDuration = d ∧
    (tsk.applyOption (.deadlineDuration d)).2
      = .deadlineDuration tsk.deadlineDuration ∧
    ((tsk.applyOption (.deadlineDuration d)).1.applyOption
        (tsk.applyOption (.deadlineDuration d)).2).1.deadlineDuration
      = tsk.deadlineDuration := by
  obtain ⟨mm, cw, _, _, _, _, _, ht, _, _, _⟩ := createTask_ok_inv _ _ _ _ _ _ _ h
  refine ⟨?_, rfl, rfl, rfl⟩
  rw [ht]
  rfl

/-- C7: on a running scheduler with a valid schedule, `CreateTask` collects
every namespace-syntax violation rather than stopping at the first: a
workflow map with at least two syntactically invalid namespaces yields an
error list with at least two entries. -/
theorem createTask_accumulates_namespace_violations (s : Scheduler)
    (mm : MetricManager) (sched : Schedule) (w : WorkflowMap)
    (opts : List TaskOption)
    (hstate : s.state = .started) (hmm : s.metricManager = some mm)
    (hval : sched.validate = none)
    (hbad : 2 ≤ (w.metrics.filter (fun m => !validateNamespace m.1)).length) :
    2 ≤ (createTask s sched w opts).2.2.length := by
  have hlen : 2 ≤ (namespaceErrors w).length := by
    simpa [namespaceErrors] using hbad
  have hne : namespaceErrors w ++ mm.validateDepsErrors ≠ [] := by
    intro hc
    rw [List.append_eq_nil] at hc
    rw [hc.1] at hlen
    simp at hlen
  unfold createTask
  simp only [hstate, hval, hmm]
  rw [if_neg (by simp)]
  rw [if_pos hne]
  calc 2 ≤ (namespaceErrors w).length := hlen
    _ ≤ (namespaceErrors w ++ mm.validateDepsErrors).length := by
        simp [List.length_append]

/-- The scheduler registry invariant: every registered task's ID is below
the fresh-ID counter, and the registered IDs are pairwise distinct. -/
def SchedulerWF (s : Scheduler) : Prop :=
  (∀ t ∈ s.tasks, t.id < s.nextId) ∧ (s.tasks.map Task.id).Nodup

/-- C8: task IDs are unique in the registry — on a well-formed scheduler a
successfully created task's ID differs from every previously registered
one, the registry's IDs stay pairwise distinct (and the invariant is
preserved), and inserting a task whose ID is already present fails with the
duplicate-ID error instead of overwriting. -/
theorem task_ids_unique_and_no_overwrite (s s' : Scheduler) (sched : Schedule)
    (w : WorkflowMap) (opts : List TaskOption) (t : Task) (errs : List PError)
    (r : List Task) (t2 : Task)
    (hwf : SchedulerWF s)
    (h : createTask s sched w opts = (s', some t, errs))
    (hdup : t2.id ∈ r.map Task.id) :
    t.id ∉ s.tasks.map Task.id ∧
    (s'.tasks.map Task.id).Nodup ∧
    SchedulerWF s' ∧
    addTask r t2 = .error (errDuplicateTaskId t2.id) := by
  obtain ⟨mm, cw, _, _, _, _, _, ht, _, _, hs'⟩ := createTask_ok_inv _ _ _ _ _ _ _ h
  have hid : t.id = s.nextId := by
    rw [ht, applyOptions_id]
  have hfresh : t.id ∉ s.tasks.map Task.id := by
    rw [hid]
    intro hc
    obtain ⟨x, hx, hxid⟩ := List.mem_map.mp hc
    exact absurd (hxid ▸ hwf.1 x hx) (lt_irrefl _)
  have hadd : addTask r t2 = .error (errDuplicateTaskId t2.id) := by
    unfold addTask
    rw [if_pos]
    rw [List.any_eq_true]
    obtain ⟨x, hx, hxid⟩ := List.mem_map.mp hdup
    exact ⟨x, hx, by simpa using hxid⟩
  have hfresh' : ∀ x ∈ s.tasks, ¬ x.id = t.id := by
    intro x hx hc
    exact hfresh (hc ▸ List.mem_map_of_mem Task.id hx)
  refine ⟨hfresh, ?_, ⟨?_, ?_⟩, hadd⟩
  · rw [hs']
    simpa using ⟨hfresh', hwf.2⟩
  · rw [hs']
    intro x hx
    rcases List.mem_cons.mp hx with hx | hx
    · subst hx
      simp [hid]
    · exact Nat.lt_succ_of_lt (hwf.1 x hx)
  · rw [hs']
    simpa using ⟨hfresh', hwf.2⟩

/-- C9: the REST `unloadPlugin` handler calls the Metric Manager's `Unload`
exactly when the version path parameter parses as an integer and the name
and type parameters are non-empty; each invalid parameter yields a 400 with
its specific message and no `Unload` call; a failing `Unload` yields a 500;
a successful `Unload` yields a 200 carrying the unloaded plugin's name,
version and type. -/
theorem unloadPlugin_param_validation
    (unload : String → Int → String → Rest.UnloadResult)
    (plName plType verStr : String) :
    ((Rest.unloadPlugin unload plName plType verStr).2 = true ↔
      Rest.parseGoInt verStr ≠ none ∧ plName ≠ "" ∧ plType ≠ "") ∧
    (Rest.parseGoInt verStr = none →
      Rest.unloadPlugin unload plName plType verStr =
        (⟨400, .fromError "invalid version"⟩, false)) ∧
    (∀ v, Rest.parseGoInt verStr = some v → plName = "" →
      Rest.unloadPlugin unload plName plType verStr =
        (⟨400, .fromError "missing plugin name"⟩, false)) ∧
    (∀ v, Rest.parseGoInt verStr = some v → plName ≠ "" → plType = "" →
      Rest.unloadPlugin unload plName plType verStr =
        (⟨400, .fromError "missing plugin type"⟩, false)) ∧
    (∀ v e, Rest.parseGoInt verStr = some v → plName ≠ "" → plType ≠ "" →
      unload plName v plType = .err e →
      Rest.unloadPlugin unload plName plType verStr =
        (⟨500, .fromError e⟩, true)) ∧
    (∀ v n uv ty, Rest.parseGoInt verStr = some v → plName ≠ "" → plType ≠ "" →
      unload plName v plType = .ok n uv ty →
      Rest.unloadPlugin unload plName plType verStr =
        (⟨200, .pluginUnloaded n uv ty⟩, true)) := by
  cases hp : Rest.parseGoInt verStr with
  | none => simp [Rest.unloadPlugin, hp]
  | some v =>
    by_cases hn : plName = ""
    · simp [Rest.unloadPlugin, hp, hn]
    · by_cases hty : plType = ""
      · simp [Rest.unloadPlugin, hp, hn, hty]
      · cases hu : unload plName v plType with
        | err e =>
          simp [Rest.unloadPlugin, hp, hn, hty, hu]
          constructor
          · rintro v1 e1 rfl h2
            rw [hu] at h2
            simp_all
          · rintro v1 n uv ty rfl h2
            rw [hu] at h2
            simp_all
        | ok n uv ty =>
          simp [Rest.unloadPlugin, hp, hn, hty, hu]
          constructor
          · rintro v1 e rfl h2
            rw [hu] at h2
            simp_all
          · rintro v1 n1 uv1 ty1 rfl h2
            rw [hu] at h2
            simp_all

/-- C10: the REST `loadPlugin` handler writes a response only for multipart
uploads: a Content-Type header that fails to parse yields a 500, but a
header parsing to any media type without the `multipart/` prefix makes the
handler return without writing any response. -/
theorem loadPlugin_multipart_only (parts : List Rest.PartOutcome)
    (e mediaType : String) (hnm : ¬ Rest.goHasPre mediaType "multipart/") :
    Rest.loadPlugin (.error e) parts = some ⟨500, .fromError e⟩ ∧
    Rest.loadPlugin (.ok mediaType) parts = none := by
  constructor
  · rfl
  · have hf : Rest.goHasPre mediaType "multipart/" = false := by
      simpa using hnm
    simp [Rest.loadPlugin, hf]

/-! Concrete instances of the conditional claims. -/

/-- Witness for C2 at the test scheduler and workflow. -/
theorem compiled_pipeline_fully_negotiated_witness :
    testCompiledTask.workflow.processNodes.fullyResolved = true ∧
    testCompiledTask.workflow.publishNodes.all
      (fun q => q.inboundContentType != "") = true :=
  compiled_pipeline_fully_negotiated testScheduler testSchedulerAfter
    (.simple oneSecond) testWorkflow [] testCompiledTask [] rfl

/-- Witness for C3 at a never-started scheduler. -/
theorem createTask_atomic_on_error_witness :
    (none : Option Task) = none ∧
    getTasks newScheduler = getTasks newScheduler ∧
    (getTasks newScheduler).length = (getTasks newScheduler).length :=
  createTask_atomic_on_error newScheduler newScheduler (.simple oneSecond)
    testWorkflow [] none [errSchedulerNotStarted] rfl (by decide)

/-- Witness for C4 at a never-started scheduler. -/
theorem createTask_not_started_guard_witness :
    createTask newScheduler (.simple oneSecond) testWorkflow [] =
      (newScheduler, none, [errSchedulerNotStarted]) ∧
    (createTask testScheduler (.simple oneSecond) testWorkflow []).2.2 = [] ∧
    (createTask testScheduler (.simple oneSecond) testWorkflow []).2.1.isSome
      = true :=
  createTask_not_started_guard newScheduler (.simple oneSecond) testWorkflow []
    (by decide)

/-- Witness for C5 at the started test scheduler. -/
theorem createTask_zero_interval_rejected_witness :
    createTask testScheduler (.simple 0) testWorkflow [] =
      (testScheduler, none, [⟨"Interval must be greater than 0"⟩]) :=
  createTask_zero_interval_rejected testScheduler testWorkflow [] rfl

/-- Witness for C6 at the test task and a 6-second override. -/
theorem deadline_default_and_option_reversible_witness :
    testCompiledTask.deadlineDuration = defaultDeadlineDuration ∧
    (testCompiledTask.applyOption (.deadlineDuration 6000000000)).1.deadlineDuration
      = 6000000000 ∧
    (testCompiledTask.applyOption (.deadlineDuration 6000000000)).2
      = .deadlineDuration testCompiledTask.deadlineDuration ∧
    ((testCompiledTask.applyOption (.deadlineDuration 6000000000)).1.applyOption
        (testCompiledTask.applyOption (.deadlineDuration 6000000000)).2).1.deadlineDuration
      = testCompiledTask.deadlineDuration :=
  deadline_default_and_option_reversible testScheduler testSchedulerAfter
    (.simple oneSecond) testWorkflow testCompiledTask [] testCompiledTask
    6000000000 rfl

/-- A workflow map declaring two syntactically invalid namespaces. -/
def badWorkflow : WorkflowMap :=
  ⟨[("****/&&&", 3), ("!!!", 1)], .nil, []⟩

/-- Witness for C7 at a workflow with two invalid namespaces. -/
theorem createTask_accumulates_namespace_violations_witness :
    2 ≤ (createTask testScheduler (.simple oneSecond) badWorkflow []).2.2.length :=
  createTask_accumulates_namespace_violations testScheduler testManager
    (.simple oneSecond) badWorkflow [] rfl rfl rfl (by decide)

/-- Witness for C8 at the test scheduler's first created task. -/
theorem task_ids_unique_and_no_overwrite_witness :
    testCompiledTask.id ∉ testScheduler.tasks.map Task.id ∧
    (testSchedulerAfter.tasks.map Task.id).Nodup ∧
    SchedulerWF testSchedulerAfter ∧
    addTask [testCompiledTask] testCompiledTask
      = .error (errDuplicateTaskId testCompiledTask.id) :=
  task_ids_unique_and_no_overwrite testScheduler testSchedulerAfter
    (.simple oneSecond) testWorkflow [] testCompiledTask []
    [testCompiledTask] testCompiledTask
    ⟨fun t ht => absurd ht (List.not_mem_nil t), List.nodup_nil⟩
    rfl (by decide)

/-- Witness for C9 at a well-formed unload request. -/
theorem unloadPlugin_param_validation_witness :
    Rest.unloadPlugin (fun _ _ _ => .ok "psutil" 3 "collector")
        "psutil" "collector" "3"
      = (⟨200, .pluginUnloaded "psutil" 3 "collector"⟩, true) :=
  (unloadPlugin_param_validation (fun _ _ _ => .ok "psutil" 3 "collector")
      "psutil" "collector" "3").2.2.2.2.2 3 "psutil" 3 "collector"
    (by decide) (by decide) (by decide) rfl

/-- Witness for C10 at a JSON request body. -/
theorem loadPlugin_multipart_only_witness :
    Rest.loadPlugin (.error "mime: no media type") [] =
      some ⟨500, .fromError "mime: no media type"⟩ ∧
    Rest.loadPlugin (.ok "application/json") [] = none :=
  loadPlugin_multipart_only [] "mime: no media type" "application/json"
    (by decide)

end Snap
